import Mathlib

/-!
Shallow embedding of `pytest_gcppubsub/_emulator.py`: the lifecycle
coordinator for a shared GCP PubSub emulator process.

Conventions of the embedding:
* OS interactions (signal delivery, liveness probes, TCP connection
  attempts, assigned ports and pids) are supplied by explicit oracles
  (`KillOutcome`, environment structures), so every function is a pure,
  executable Lean definition over those oracles.
* Wall-clock time is discretised at the source's fixed 0.2s backoff: a
  polling loop that sleeps 0.2s per failed iteration runs its `i`-th
  iteration while `i / 5 < timeout` (timeouts are rationals, standing in
  for Python floats).
* The shared JSON state file is modelled by `FileState`: missing,
  undecodable text, or a decoded JSON value (`PyJson`), where a JSON
  value is a well-formed state record (`SharedState`), an object with a
  usable integer `"pid"` but no usable `"worker_count"`
  (`PyJson.pidOnly`), or a value with no usable `"pid"` at all
  (`PyJson.noPid`); the coordinator's behaviour on each shape follows
  the subscripts the source performs.
* Python exceptions are modelled with `Except PyErr`.
-/

/-- Connection details for a running PubSub emulator
(`EmulatorInfo` dataclass in the source). -/
structure EmulatorInfo where
  host : String
  port : Nat
  project : String
  deriving DecidableEq

/-- Derived accessor `host_port` of `EmulatorInfo`. -/
def EmulatorInfo.hostPort (i : EmulatorInfo) : String :=
  i.host ++ ":" ++ toString i.port

/-- Python exceptions that the modelled code can raise. -/
inductive PyErr where
  /-- `TimeoutError` raised by `_wait_for_port`, carrying its message. -/
  | timeoutError (msg : String)
  /-- `TypeError` / `KeyError` raised by subscripting a JSON value that is
  not a well-formed state record. -/
  | typeError
  /-- `PermissionError` escaping an `os.kill` call. -/
  | permissionError
  deriving DecidableEq

/-- Outcome of one `os.kill(pid, sig)` call, as determined by the OS:
the call returns normally, raises `ProcessLookupError` (ESRCH), or raises
`PermissionError` (EPERM). -/
inductive KillOutcome where
  | delivered
  | noSuchProcess
  | permissionDenied
  deriving DecidableEq

/-- Embedding of `_is_pid_alive` given the outcome of its probe
`os.kill(pid, 0)`: `ProcessLookupError` yields `False`, `PermissionError`
yields `True`, a normal return yields `True`. -/
def isPidAlive : KillOutcome → Bool
  | .noSuchProcess => false
  | .permissionDenied => true
  | .delivered => true

/-- `_is_pid_alive(pid)` against an OS oracle `probe` giving the outcome
of the existence probe for each pid. -/
def isPidAliveOS (probe : Int → KillOutcome) (pid : Int) : Bool :=
  isPidAlive (probe pid)

/-- Message of the `TimeoutError` raised by `_wait_for_port`. -/
def timeoutMsg (timeout : ℚ) (host : String) (port : Nat) : String :=
  "Emulator did not start within " ++ toString timeout ++ "s on "
    ++ host ++ ":" ++ toString port

/-- Polling loop of `_wait_for_port`, starting at iteration `i`:
`conn j` is the oracle saying whether the `j`-th connection attempt
succeeds.  Runs while `i / 5 < timeout` (each failed attempt sleeps
0.2s); returns `true` iff some attempt before the deadline succeeds. -/
def waitPortLoop (conn : Nat → Bool) (timeout : ℚ) (i : Nat) : Bool :=
  if h : (i : ℚ) / 5 < timeout then
    if conn i then true
    else waitPortLoop conn timeout (i + 1)
  else false
termination_by (⌈timeout * 5⌉).toNat - i
decreasing_by
  have h5 : (i : ℚ) < timeout * 5 := by
    have := (div_lt_iff₀ (by norm_num : (0:ℚ) < 5)).mp h
    linarith
  have hz : (i : ℤ) < ⌈timeout * 5⌉ := Int.lt_ceil.mpr (by exact_mod_cast h5)
  have hn : i < (⌈timeout * 5⌉).toNat := Int.lt_toNat.mpr hz
  omega

/-- Embedding of `_wait_for_port(host, port, timeout)`: polls until a
connection attempt succeeds (`Except.ok`) or the deadline passes, in
which case it raises `TimeoutError` with a message naming the timeout,
host and port. -/
def waitForPort (conn : Nat → Bool) (host : String) (port : Nat)
    (timeout : ℚ) : Except PyErr Unit :=
  if waitPortLoop conn timeout 0 then Except.ok ()
  else Except.error (PyErr.timeoutError (timeoutMsg timeout host port))

/-- OS-level behaviour presented to one `_terminate_process(pid)` call:
the outcome of the initial `os.kill(pid, SIGTERM)`, the outcome of the
liveness probe at each iteration of the graceful wait, and the outcome of
the final `os.kill(pid, SIGKILL)` (if reached). -/
structure TermEnv where
  sigterm : KillOutcome
  probe : Nat → KillOutcome
  sigkill : KillOutcome

/-- Graceful-wait loop of `_terminate_process`: polls `_is_pid_alive`
while `i / 5 < timeout` (0.2s sleeps); returns `true` iff the process was
observed dead before the deadline. -/
def termWaitLoop (probe : Nat → KillOutcome) (timeout : ℚ) (i : Nat) : Bool :=
  if h : (i : ℚ) / 5 < timeout then
    if isPidAlive (probe i) then termWaitLoop probe timeout (i + 1)
    else true
  else false
termination_by (⌈timeout * 5⌉).toNat - i
decreasing_by
  have h5 : (i : ℚ) < timeout * 5 := by
    have := (div_lt_iff₀ (by norm_num : (0:ℚ) < 5)).mp h
    linarith
  have hz : (i : ℤ) < ⌈timeout * 5⌉ := Int.lt_ceil.mpr (by exact_mod_cast h5)
  have hn : i < (⌈timeout * 5⌉).toNat := Int.lt_toNat.mpr hz
  omega

/-- Embedding of `_terminate_process(pid, timeout)`: SIGTERM (a
`ProcessLookupError` there means the process is already gone — return),
then wait up to `timeout` for the process to die, then SIGKILL with
`ProcessLookupError` ignored.  A `PermissionError` on either kill
propagates, as in the source. -/
def terminateProcess (env : TermEnv) (timeout : ℚ) : Except PyErr Unit :=
  match env.sigterm with
  | .noSuchProcess => Except.ok ()
  | .permissionDenied => Except.error PyErr.permissionError
  | .delivered =>
    if termWaitLoop env.probe timeout 0 then Except.ok ()
    else
      match env.sigkill with
      | .noSuchProcess => Except.ok ()
      | .permissionDenied => Except.error PyErr.permissionError
      | .delivered => Except.ok ()

/-- Durable record held in the shared JSON state file, with the five keys
written by `_start_shared`.  `worker_count` is a Python int (unbounded,
possibly negative if the file was tampered with), hence `Int`. -/
structure SharedState where
  pid : Int
  host : String
  port : Nat
  project : String
  worker_count : Int
  deriving DecidableEq

/-- Result of `json.loads` on the state file's text, at the granularity
of the accesses `_start_shared` and `_stop_shared` perform.
`record s` is a JSON object decoding to a well-formed five-key state
record.  Two malformed shapes are tracked: `pidOnly pid` is a JSON
object holding an integer `"pid"` key but no numeric `"worker_count"`
(such as the text `{"pid": 999999}` gives), so the coordinator's
`state["pid"]` succeeds while the join path's increment of
`state["worker_count"]` raises; `noPid` is a decoded value on which
`state["pid"]` fails to yield an integer pid — a list, a string, a
number, an object without an integer `"pid"` — so the coordinator
raises before reading any field and before any write.  (A malformed
object holding both an integer pid and a numeric count, e.g. a record
with extra keys, is not represented by this type.) -/
inductive PyJson where
  | record (s : SharedState)
  | pidOnly (pid : Int)
  | noPid
  deriving DecidableEq

/-- Content of the shared state file as `_read_state` finds it: the file
is missing (`FileNotFoundError`), holds text that is not valid JSON
(`json.JSONDecodeError`), or holds valid JSON decoding to `v`. -/
inductive FileState where
  | missing
  | invalidJson
  | holds (v : PyJson)
  deriving DecidableEq

/-- Embedding of `PubSubEmulator._read_state`: `json.loads` of the file's
text, with `FileNotFoundError` and `json.JSONDecodeError` both caught and
turned into `None`.  Any successfully decoded JSON value is returned
as-is. -/
def readState : FileState → Option PyJson
  | .missing => none
  | .invalidJson => none
  | .holds v => some v

/-- Embedding of `PubSubEmulator._write_state`: overwrite the file with
the serialized record. -/
def writeState (s : SharedState) : FileState :=
  FileState.holds (PyJson.record s)

/-- Constructor arguments of `PubSubEmulator` that `_start_shared` reads:
requested host, requested port (`0` means auto), project, and readiness
timeout. -/
structure EmulatorConfig where
  host : String
  port : Nat
  project : String
  timeout : ℚ
  deriving DecidableEq

/-- OS-level behaviour presented to one `_start_shared` call: the
liveness-probe oracle used by `_is_pid_alive`, the port `_find_free_port`
would hand out, the pid `subprocess.Popen` assigns to a launched child,
and the connection-attempt oracle driving `_wait_for_port`. -/
structure StartEnv where
  probe : Int → KillOutcome
  freePort : Nat
  launchPid : Int
  conn : Nat → Bool

/-- Observable side effects of one `_start_shared` call: how many times
`_launch` ran and how many times `_wait_for_port` probed the port. -/
structure StartEff where
  launches : Nat
  probes : Nat
  deriving DecidableEq

/-- Result of one `_start_shared` call: the returned `EmulatorInfo` (or
the propagated exception), the state file's content when the lock is
released, and the call's side effects. -/
structure AcquireOut where
  result : Except PyErr EmulatorInfo
  file : FileState
  eff : StartEff

/-- `port = _find_free_port() if self._port == 0 else self._port`. -/
def resolvedPort (cfg : EmulatorConfig) (env : StartEnv) : Nat :=
  if cfg.port = 0 then env.freePort else cfg.port

/-- The "start new emulator" block of `_start_shared` (first worker or
stale state): resolve the port, `_launch`, `_wait_for_port`, then persist
a fresh record with `worker_count = 1` and return the new info.  If the
readiness wait raises, the exception propagates and the state file is
left exactly as it was. -/
def startOwner (cfg : EmulatorConfig) (env : StartEnv) (file : FileState) :
    AcquireOut :=
  match waitForPort env.conn cfg.host (resolvedPort cfg env) cfg.timeout with
  | .error e => ⟨Except.error e, file, ⟨1, 1⟩⟩
  | .ok _ =>
    ⟨Except.ok ⟨cfg.host, resolvedPort cfg env, cfg.project⟩,
     writeState
       ⟨env.launchPid, cfg.host, resolvedPort cfg env, cfg.project, 1⟩,
     ⟨1, 1⟩⟩

/-- Embedding of `PubSubEmulator._start_shared`, the critical section
under the file lock (lock acquisition itself is modelled by calls being
serialized).  Read the state; if a record is present and its pid is
alive, join it (increment `worker_count`, persist, return the stored
connection info); an object with an integer pid but no usable count is
dispatched on that pid — alive makes the join path's count increment
raise before any write, dead falls through to re-launch; a value with no
usable pid makes `state["pid"]` (or the `os.kill` probe on its non-int
value) raise; absent or dead-owner states become the owner via
`startOwner`. -/
def startShared (cfg : EmulatorConfig) (env : StartEnv) (file : FileState) :
    AcquireOut :=
  match readState file with
  | some (.record s) =>
    if isPidAliveOS env.probe s.pid then
      ⟨Except.ok ⟨s.host, s.port, s.project⟩,
       writeState { s with worker_count := s.worker_count + 1 },
       ⟨0, 0⟩⟩
    else startOwner cfg env file
  | some (.pidOnly pid) =>
    if isPidAliveOS env.probe pid then
      ⟨Except.error PyErr.typeError, file, ⟨0, 0⟩⟩
    else startOwner cfg env file
  | some .noPid => ⟨Except.error PyErr.typeError, file, ⟨0, 0⟩⟩
  | none => startOwner cfg env file

/-- OS-level behaviour presented to one `_stop_shared` call: the
behaviour of the `_terminate_process` call it may make. -/
structure StopEnv where
  term : TermEnv

/-- Result of one `_stop_shared` call: normal return or propagated
exception, the state file's content when the lock is released, and the
pid `_terminate_process` was invoked on (if it was). -/
structure ReleaseOut where
  result : Except PyErr Unit
  file : FileState
  terminated : Option Int

/-- Embedding of `PubSubEmulator._stop_shared`, the critical section
under the file lock: read the state; absent means no-op; a non-record
JSON value (no usable count in either malformed shape) makes the
decrement of `state["worker_count"]` raise before any write or
termination; otherwise decrement the count, and either terminate the
owner pid and unlink the file (count `≤ 0`) or persist the decremented
record.  `_terminate_process` is called with its default 5-second
timeout; if it raises, the unlink is not reached. -/
def stopShared (env : StopEnv) (file : FileState) : ReleaseOut :=
  match readState file with
  | none => ⟨Except.ok (), file, none⟩
  | some (.pidOnly _) => ⟨Except.error PyErr.typeError, file, none⟩
  | some .noPid => ⟨Except.error PyErr.typeError, file, none⟩
  | some (.record s) =>
    let s' : SharedState := { s with worker_count := s.worker_count - 1 }
    if s'.worker_count ≤ 0 then
      match terminateProcess env.term 5 with
      | .error e => ⟨Except.error e, file, some s.pid⟩
      | .ok _ => ⟨Except.ok (), FileState.missing, some s.pid⟩
    else ⟨Except.ok (), writeState s', none⟩

/-- A sequence of `_start_shared` calls serialized by the file lock, each
seeing the state file as the previous call left it.  Returns each call's
result and effects, plus the final file content. -/
def runAcquires (cfg : EmulatorConfig) :
    List StartEnv → FileState →
      List (Except PyErr EmulatorInfo × StartEff) × FileState
  | [], file => ([], file)
  | env :: rest, file =>
    let out := startShared cfg env file
    let next := runAcquires cfg rest out.file
    ((out.result, out.eff) :: next.1, next.2)

/-- One critical section executed against the shared state file: an
acquire (`_start_shared`) or a release (`_stop_shared`). -/
inductive CoordOp where
  | acq (cfg : EmulatorConfig) (env : StartEnv)
  | rel (env : StopEnv)

/-- The state file's content after running one serialized critical
section against it. -/
def stepFile : CoordOp → FileState → FileState
  | .acq cfg env, f => (startShared cfg env f).file
  | .rel env, f => (stopShared env f).file

/-- The state file's content after a serialized history of acquire and
release critical sections. -/
def runOps (ops : List CoordOp) (f : FileState) : FileState :=
  ops.foldl (fun acc op => stepFile op acc) f

/-- Every state record held in the file has a positive user count (files
with no decoded record satisfy this vacuously). -/
def goodFile : FileState → Prop
  | .holds (.record s) => 1 ≤ s.worker_count
  | _ => True

/-! ### Helper lemmas -/

/-- Unfolding equation for `waitPortLoop` with a plain `if`. -/
theorem waitPortLoop_eq (conn : Nat → Bool) (timeout : ℚ) (i : Nat) :
    waitPortLoop conn timeout i =
      if (i : ℚ) / 5 < timeout then
        if conn i then true else waitPortLoop conn timeout (i + 1)
      else false := by
  rw [waitPortLoop, dite_eq_ite]

/-- Unfolding equation for `termWaitLoop` with a plain `if`. -/
theorem termWaitLoop_eq (probe : Nat → KillOutcome) (timeout : ℚ) (i : Nat) :
    termWaitLoop probe timeout i =
      if (i : ℚ) / 5 < timeout then
        if isPidAlive (probe i) then termWaitLoop probe timeout (i + 1)
        else true
      else false := by
  rw [termWaitLoop, dite_eq_ite]

/-- If no connection attempt ever succeeds, the polling loop of
`_wait_for_port` exits `false` once the deadline passes, from any
starting iteration. -/
theorem waitPortLoop_never (conn : Nat → Bool) (timeout : ℚ)
    (h : ∀ j, conn j = false) (i : Nat) :
    waitPortLoop conn timeout i = false := by
  have key : ∀ k i, (⌈timeout * 5⌉).toNat - i ≤ k →
      waitPortLoop conn timeout i = false := by
    intro k
    induction k with
    | zero =>
      intro i hk
      rw [waitPortLoop_eq, if_neg, ]
      intro hlt
      have h5 : (i : ℚ) < timeout * 5 := by
        have := (div_lt_iff₀ (by norm_num : (0:ℚ) < 5)).mp hlt
        linarith
      have hz : (i : ℤ) < ⌈timeout * 5⌉ := Int.lt_ceil.mpr (by exact_mod_cast h5)
      have hn : i < (⌈timeout * 5⌉).toNat := Int.lt_toNat.mpr hz
      omega
    | succ k ih =>
      intro i hk
      rw [waitPortLoop_eq]
      by_cases hlt : (i : ℚ) / 5 < timeout
      · rw [if_pos hlt, h i, if_neg (by simp)]
        refine ih (i + 1) ?_
        have h5 : (i : ℚ) < timeout * 5 := by
          have := (div_lt_iff₀ (by norm_num : (0:ℚ) < 5)).mp hlt
          linarith
        have hz : (i : ℤ) < ⌈timeout * 5⌉ := Int.lt_ceil.mpr (by exact_mod_cast h5)
        have hn : i < (⌈timeout * 5⌉).toNat := Int.lt_toNat.mpr hz
        omega
      · rw [if_neg hlt]
  exact key _ i le_rfl

/-- If the very first connection attempt succeeds and the timeout is
positive, the polling loop succeeds. -/
theorem waitPortLoop_first (conn : Nat → Bool) (timeout : ℚ)
    (hpos : 0 < timeout) (hc : conn 0 = true) :
    waitPortLoop conn timeout 0 = true := by
  rw [waitPortLoop_eq, if_pos (by simpa using hpos), hc]
  simp

/-- `_wait_for_port` returns normally when the first attempt succeeds. -/
theorem waitForPort_first (conn : Nat → Bool) (host : String) (port : Nat)
    (timeout : ℚ) (hpos : 0 < timeout) (hc : conn 0 = true) :
    waitForPort conn host port timeout = Except.ok () := by
  rw [waitForPort, if_pos (waitPortLoop_first conn timeout hpos hc)]

/-! ### Claims about the process handle and the port prober -/

/-- C8: for every pid, `_is_pid_alive(pid)` returns `false` exactly when
the existence probe reports "no such process", returns `true` when the
probe reports "exists but no permission to signal", and returns `true`
for any other outcome of the probe; being a total function, it never
raises. -/
theorem is_pid_alive_spec (probe : Int → KillOutcome) (pid : Int) :
    (isPidAliveOS probe pid = false ↔ probe pid = KillOutcome.noSuchProcess)
    ∧ (probe pid = KillOutcome.permissionDenied →
        isPidAliveOS probe pid = true)
    ∧ (probe pid ≠ KillOutcome.noSuchProcess →
        isPidAliveOS probe pid = true) := by
  cases h : probe pid <;> simp [isPidAliveOS, isPidAlive, h]

/-- Witness for `is_pid_alive_spec` at a concrete probe oracle and pid. -/
theorem is_pid_alive_spec_witness :
    (fun _ : Int => KillOutcome.permissionDenied) 1
        = KillOutcome.permissionDenied
      ∧ isPidAliveOS (fun _ => KillOutcome.permissionDenied) 1 = true :=
  ⟨rfl, (is_pid_alive_spec (fun _ => KillOutcome.permissionDenied) 1).2.1 rfl⟩

/-- C7: `_terminate_process` treats "process already gone" at any step as
success: if the process is already gone at the graceful SIGTERM, or is
observed dead during the bounded wait, or is gone at the forceful
SIGKILL, the call returns normally.  In particular, calling it on a pid
whose process does not exist — such as a second call on a pid the first
call terminated — never raises. -/
theorem terminate_process_idempotent (env : TermEnv) (timeout : ℚ) :
    (env.sigterm = KillOutcome.noSuchProcess →
        terminateProcess env timeout = Except.ok ())
    ∧ (env.sigterm = KillOutcome.delivered →
        termWaitLoop env.probe timeout 0 = true →
        terminateProcess env timeout = Except.ok ())
    ∧ (env.sigterm = KillOutcome.delivered →
        env.sigkill = KillOutcome.noSuchProcess →
        terminateProcess env timeout = Except.ok ()) := by
  obtain ⟨st, pr, sk⟩ := env
  refine ⟨fun h1 => ?_, fun h1 h2 => ?_, fun h1 h2 => ?_⟩
  · subst h1; rfl
  · subst h1; simp only [terminateProcess] at h2 ⊢; rw [h2]; rfl
  · subst h1; subst h2
    simp only [terminateProcess]
    cases hw : termWaitLoop pr timeout 0 <;> simp [hw]

/-- Witness for `terminate_process_idempotent` on a pid with no live
process at any step. -/
theorem terminate_process_idempotent_witness :
    TermEnv.sigterm
        ⟨KillOutcome.noSuchProcess, fun _ => KillOutcome.noSuchProcess,
          KillOutcome.noSuchProcess⟩ = KillOutcome.noSuchProcess
      ∧ terminateProcess
          ⟨KillOutcome.noSuchProcess, fun _ => KillOutcome.noSuchProcess,
            KillOutcome.noSuchProcess⟩ 5 = Except.ok () :=
  ⟨rfl,
   (terminate_process_idempotent
      ⟨KillOutcome.noSuchProcess, fun _ => KillOutcome.noSuchProcess,
        KillOutcome.noSuchProcess⟩ 5).1 rfl⟩

/-- C9: for every host, port and timeout, if no connection attempt ever
succeeds then `_wait_for_port` terminates (it is a total function, so it
cannot poll forever) and raises the `TimeoutError` whose message is built
from the configured timeout, host and port. -/
theorem wait_for_port_timeout (conn : Nat → Bool) (host : String)
    (port : Nat) (timeout : ℚ) (h : ∀ j, conn j = false) :
    waitForPort conn host port timeout =
      Except.error (PyErr.timeoutError (timeoutMsg timeout host port)) := by
  rw [waitForPort, if_neg]
  rw [waitPortLoop_never conn timeout h 0]
  simp

/-- Witness for `wait_for_port_timeout` on a port where nothing ever
answers. -/
theorem wait_for_port_timeout_witness :
    waitForPort (fun _ => false) "localhost" 8085 1 =
      Except.error
        (PyErr.timeoutError (timeoutMsg 1 "localhost" 8085)) :=
  wait_for_port_timeout (fun _ => false) "localhost" 8085 1 (fun _ => rfl)

/-! ### Helper lemmas about the shared-mode critical sections -/

/-- `_wait_for_port` raises its `TimeoutError` when no attempt ever
succeeds (helper form, shared by several proofs). -/
theorem waitForPort_never (conn : Nat → Bool) (host : String) (port : Nat)
    (timeout : ℚ) (h : ∀ j, conn j = false) :
    waitForPort conn host port timeout =
      Except.error (PyErr.timeoutError (timeoutMsg timeout host port)) := by
  rw [waitForPort, waitPortLoop_never conn timeout h 0]
  simp

/-- Join step of `_start_shared`: a present record with a live owner pid
is joined — count incremented and persisted, stored info returned, no
launch and no port probe. -/
theorem startShared_join (cfg : EmulatorConfig) (env : StartEnv)
    (file : FileState) (s : SharedState)
    (hr : readState file = some (PyJson.record s))
    (ha : isPidAliveOS env.probe s.pid = true) :
    startShared cfg env file =
      ⟨Except.ok ⟨s.host, s.port, s.project⟩,
       writeState { s with worker_count := s.worker_count + 1 },
       ⟨0, 0⟩⟩ := by
  cases file with
  | missing => simp [readState] at hr
  | invalidJson => simp [readState] at hr
  | holds v =>
    simp only [readState, Option.some.injEq] at hr
    subst hr
    simp [startShared, readState, ha]

/-- Dispatch step of `_start_shared`: an absent record or a dead owner
pid falls through to the "start new emulator" block. -/
theorem startShared_of_dead (cfg : EmulatorConfig) (env : StartEnv)
    (file : FileState)
    (hdead : readState file = none ∨
      ∃ s, readState file = some (PyJson.record s) ∧
        isPidAliveOS env.probe s.pid = false) :
    startShared cfg env file = startOwner cfg env file := by
  rcases hdead with h | ⟨s, hr, hd⟩
  · cases file with
    | missing => rfl
    | invalidJson => rfl
    | holds v => simp [readState] at h
  · cases file with
    | missing => simp [readState] at hr
    | invalidJson => simp [readState] at hr
    | holds v =>
      simp only [readState, Option.some.injEq] at hr
      subst hr
      simp [startShared, readState, hd]

/-- Owner step of `_start_shared` when the readiness wait succeeds. -/
theorem startOwner_ready (cfg : EmulatorConfig) (env : StartEnv)
    (file : FileState)
    (hready : waitForPort env.conn cfg.host (resolvedPort cfg env)
        cfg.timeout = Except.ok ()) :
    startOwner cfg env file =
      ⟨Except.ok ⟨cfg.host, resolvedPort cfg env, cfg.project⟩,
       writeState
         ⟨env.launchPid, cfg.host, resolvedPort cfg env, cfg.project, 1⟩,
       ⟨1, 1⟩⟩ := by
  simp [startOwner, hready]

/-- Owner step of `_start_shared` when the readiness wait raises. -/
theorem startOwner_fail (cfg : EmulatorConfig) (env : StartEnv)
    (file : FileState) (e : PyErr)
    (hto : waitForPort env.conn cfg.host (resolvedPort cfg env)
        cfg.timeout = Except.error e) :
    startOwner cfg env file = ⟨Except.error e, file, ⟨1, 1⟩⟩ := by
  simp [startOwner, hto]

/-! ### Claims about single acquire and release critical sections -/

/-- C2: in shared mode, whenever `acquire()` reads a state record whose
owner pid is alive, it joins: it increments the record's user count by
exactly one, persists the updated record (all other fields unchanged),
launches no process, never calls the port probe, and returns an
`EmulatorInfo` built from the stored host, port and project — the
caller's own configuration `cfg` does not appear in the result. -/
theorem acquire_joins_live_owner (cfg : EmulatorConfig) (env : StartEnv)
    (file : FileState) (s : SharedState)
    (hr : readState file = some (PyJson.record s))
    (ha : isPidAliveOS env.probe s.pid = true) :
    startShared cfg env file =
      ⟨Except.ok ⟨s.host, s.port, s.project⟩,
       writeState { s with worker_count := s.worker_count + 1 },
       ⟨0, 0⟩⟩ :=
  startShared_join cfg env file s hr ha

/-- Witness for `acquire_joins_live_owner`: joining a stored record with
pid 7 while the probe reports the pid alive. -/
theorem acquire_joins_live_owner_witness :
    readState (writeState ⟨7, "localhost", 8085, "test-project", 1⟩)
        = some (PyJson.record ⟨7, "localhost", 8085, "test-project", 1⟩)
      ∧ isPidAliveOS (fun _ => KillOutcome.delivered) 7 = true
      ∧ startShared ⟨"otherhost", 9999, "other-project", 15⟩
          ⟨fun _ => KillOutcome.delivered, 9000, 4242, fun _ => true⟩
          (writeState ⟨7, "localhost", 8085, "test-project", 1⟩) =
        ⟨Except.ok ⟨"localhost", 8085, "test-project"⟩,
         writeState ⟨7, "localhost", 8085, "test-project", 2⟩,
         ⟨0, 0⟩⟩ :=
  ⟨rfl, rfl,
   acquire_joins_live_owner ⟨"otherhost", 9999, "other-project", 15⟩
     ⟨fun _ => KillOutcome.delivered, 9000, 4242, fun _ => true⟩
     (writeState ⟨7, "localhost", 8085, "test-project", 1⟩)
     ⟨7, "localhost", 8085, "test-project", 1⟩ rfl rfl⟩

/-- C3: in shared mode, with the record absent or its owner pid dead, the
caller becomes the owner: the port is the prober's answer when the
requested port is `0` (else the requested port), one launch and one
readiness wait happen, and on readiness a fresh record with
`worker_count = 1` and the launched pid is persisted and the new info
returned.  The persisted record and the result are independent of any
stale record's fields — nothing is carried over. -/
theorem acquire_becomes_owner (cfg : EmulatorConfig) (env : StartEnv)
    (file : FileState)
    (hdead : readState file = none ∨
      ∃ s, readState file = some (PyJson.record s) ∧
        isPidAliveOS env.probe s.pid = false)
    (hready : waitForPort env.conn cfg.host (resolvedPort cfg env)
        cfg.timeout = Except.ok ()) :
    startShared cfg env file =
      ⟨Except.ok ⟨cfg.host, resolvedPort cfg env, cfg.project⟩,
       writeState
         ⟨env.launchPid, cfg.host, resolvedPort cfg env, cfg.project, 1⟩,
       ⟨1, 1⟩⟩ := by
  rw [startShared_of_dead cfg env file hdead]
  exact startOwner_ready cfg env file hready

/-- Witness for `acquire_becomes_owner`: a stale record owned by dead
pid 9 is fully replaced by a fresh record for the launched pid 4242. -/
theorem acquire_becomes_owner_witness :
    readState (writeState ⟨9, "oldhost", 7777, "old-project", 3⟩)
        = some (PyJson.record ⟨9, "oldhost", 7777, "old-project", 3⟩)
      ∧ isPidAliveOS (fun _ => KillOutcome.noSuchProcess) 9 = false
      ∧ startShared ⟨"localhost", 8085, "test-project", 15⟩
          ⟨fun _ => KillOutcome.noSuchProcess, 9000, 4242, fun _ => true⟩
          (writeState ⟨9, "oldhost", 7777, "old-project", 3⟩) =
        ⟨Except.ok
           ⟨"localhost",
            resolvedPort ⟨"localhost", 8085, "test-project", 15⟩
              ⟨fun _ => KillOutcome.noSuchProcess, 9000, 4242, fun _ => true⟩,
            "test-project"⟩,
         writeState
           ⟨4242, "localhost",
            resolvedPort ⟨"localhost", 8085, "test-project", 15⟩
              ⟨fun _ => KillOutcome.noSuchProcess, 9000, 4242, fun _ => true⟩,
            "test-project", 1⟩,
         ⟨1, 1⟩⟩ :=
  ⟨rfl, rfl,
   acquire_becomes_owner ⟨"localhost", 8085, "test-project", 15⟩
     ⟨fun _ => KillOutcome.noSuchProcess, 9000, 4242, fun _ => true⟩
     (writeState ⟨9, "oldhost", 7777, "old-project", 3⟩)
     (Or.inr ⟨⟨9, "oldhost", 7777, "old-project", 3⟩, rfl, rfl⟩)
     (waitForPort_first _ _ _ _ (by norm_num) rfl)⟩

/-- C5: in shared mode, if the readiness wait raises during the critical
section of an owner-path `acquire()`, the exception propagates and the
state file is left exactly as it was — in particular a record that was
absent before the call is still absent afterwards. -/
theorem acquire_timeout_writes_nothing (cfg : EmulatorConfig)
    (env : StartEnv) (file : FileState)
    (hdead : readState file = none ∨
      ∃ s, readState file = some (PyJson.record s) ∧
        isPidAliveOS env.probe s.pid = false)
    (e : PyErr)
    (hto : waitForPort env.conn cfg.host (resolvedPort cfg env)
        cfg.timeout = Except.error e) :
    startShared cfg env file = ⟨Except.error e, file, ⟨1, 1⟩⟩
      ∧ readState (startShared cfg env file).file = readState file := by
  have h1 : startShared cfg env file = ⟨Except.error e, file, ⟨1, 1⟩⟩ := by
    rw [startShared_of_dead cfg env file hdead]
    exact startOwner_fail cfg env file e hto
  exact ⟨h1, by rw [h1]⟩

/-- Witness for `acquire_timeout_writes_nothing`: a timed-out owner path
starting from a missing state file leaves the file missing. -/
theorem acquire_timeout_writes_nothing_witness :
    readState FileState.missing = none
      ∧ startShared ⟨"localhost", 8085, "test-project", 15⟩
          ⟨fun _ => KillOutcome.delivered, 9000, 4242, fun _ => false⟩
          FileState.missing =
        ⟨Except.error
           (PyErr.timeoutError
             (timeoutMsg 15 "localhost"
               (resolvedPort ⟨"localhost", 8085, "test-project", 15⟩
                 ⟨fun _ => KillOutcome.delivered, 9000, 4242,
                   fun _ => false⟩))),
         FileState.missing, ⟨1, 1⟩⟩ :=
  ⟨rfl,
   (acquire_timeout_writes_nothing ⟨"localhost", 8085, "test-project", 15⟩
     ⟨fun _ => KillOutcome.delivered, 9000, 4242, fun _ => false⟩
     FileState.missing (Or.inl rfl) _
     (waitForPort_never _ _ _ _ (fun _ => rfl))).1⟩

/-- C4: in shared mode, `release()` is a no-op (not an error) when the
state record is absent; otherwise it decrements the user count, and if
the decremented value is `≤ 0` it terminates the process named by the
stored owner pid and deletes the state file (given that the termination
call returns, which it does whenever the process is gone or killable),
else it persists the decremented record with every other field
unchanged. -/
theorem release_refcount (env : StopEnv) (file : FileState) :
    (readState file = none → stopShared env file = ⟨Except.ok (), file, none⟩)
    ∧ (∀ s, readState file = some (PyJson.record s) →
        (s.worker_count - 1 ≤ 0 →
          terminateProcess env.term 5 = Except.ok () →
          stopShared env file =
            ⟨Except.ok (), FileState.missing, some s.pid⟩)
        ∧ (0 < s.worker_count - 1 →
          stopShared env file =
            ⟨Except.ok (),
             writeState { s with worker_count := s.worker_count - 1 },
             none⟩)) := by
  constructor
  · intro h
    cases file with
    | missing => rfl
    | invalidJson => rfl
    | holds v => simp [readState] at h
  · intro s hr
    cases file with
    | missing => simp [readState] at hr
    | invalidJson => simp [readState] at hr
    | holds v =>
      simp only [readState, Option.some.injEq] at hr
      subst hr
      constructor
      · intro hle hterm
        simp [stopShared, readState, hle, hterm]
      · intro hpos
        simp [stopShared, readState, not_le.mpr hpos, le_of_lt]

/-- Witness for `release_refcount`: releasing with a stored count of 2
persists the same record with count 1. -/
theorem release_refcount_witness :
    readState (writeState ⟨77, "localhost", 8085, "test-project", 2⟩)
        = some (PyJson.record ⟨77, "localhost", 8085, "test-project", 2⟩)
      ∧ (0 : ℤ) < 2 - 1
      ∧ stopShared
          ⟨⟨KillOutcome.delivered, fun _ => KillOutcome.delivered,
            KillOutcome.delivered⟩⟩
          (writeState ⟨77, "localhost", 8085, "test-project", 2⟩) =
        ⟨Except.ok (),
         writeState ⟨77, "localhost", 8085, "test-project", 1⟩, none⟩ :=
  ⟨rfl, by norm_num,
   ((release_refcount
       ⟨⟨KillOutcome.delivered, fun _ => KillOutcome.delivered,
         KillOutcome.delivered⟩⟩
       (writeState ⟨77, "localhost", 8085, "test-project", 2⟩)).2
     ⟨77, "localhost", 8085, "test-project", 2⟩ rfl).2 (by norm_num)⟩

/-- C6 counterexample: content that is valid JSON but cannot be decoded
into a `SharedState` record — here a value with no usable pid, such as
the text `[1,2]` gives — is NOT treated as absent by `_read_state`; it
is returned as-is, and the coordinator's subsequent subscript raises
instead of re-launching. -/
theorem read_state_malformed_cex :
    readState (FileState.holds PyJson.noPid) ≠ none
      ∧ (startShared ⟨"localhost", 8085, "test-project", 15⟩
           ⟨fun _ => KillOutcome.delivered, 9000, 4242, fun _ => true⟩
           (FileState.holds PyJson.noPid)).result
          = Except.error PyErr.typeError := by
  constructor
  · simp [readState]
  · rfl

/-- C6 amended: `_read_state` returns "absent" exactly when the file is
missing or its content is not decodable as JSON; content that decodes as
JSON — whether or not it forms a `SharedState` record — is returned
as-is.  What happens next depends on the content: a value with no usable
pid makes the coordinator raise with the file untouched, while an object
whose integer pid is dead falls through to the same "start new emulator"
block as an absent record — it does recover by re-launch. -/
theorem read_state_absent_iff :
    (∀ f, readState f = none ↔
      f = FileState.missing ∨ f = FileState.invalidJson)
    ∧ (∀ v, readState (FileState.holds v) = some v)
    ∧ (∀ cfg env, startShared cfg env (FileState.holds PyJson.noPid) =
        ⟨Except.error PyErr.typeError, FileState.holds PyJson.noPid,
         ⟨0, 0⟩⟩)
    ∧ (∀ cfg env pid, isPidAliveOS env.probe pid = false →
        startShared cfg env (FileState.holds (PyJson.pidOnly pid)) =
          startOwner cfg env (FileState.holds (PyJson.pidOnly pid))) := by
  refine ⟨fun f => ?_, fun v => rfl, fun cfg env => rfl,
    fun cfg env pid hdead => ?_⟩
  · cases f <;> simp [readState]
  · simp [startShared, readState, hdead]

/-- Witness for `read_state_absent_iff` at concrete file contents: the
dead-pid object `{"pid": 999999}` is dispatched to the re-launch path. -/
theorem read_state_absent_iff_witness :
    readState FileState.invalidJson = none
      ∧ readState (FileState.holds PyJson.noPid) = some PyJson.noPid
      ∧ isPidAliveOS (fun _ => KillOutcome.noSuchProcess) 999999 = false
      ∧ startShared ⟨"localhost", 8085, "test-project", 15⟩
          ⟨fun _ => KillOutcome.noSuchProcess, 9000, 4242, fun _ => true⟩
          (FileState.holds (PyJson.pidOnly 999999)) =
        startOwner ⟨"localhost", 8085, "test-project", 15⟩
          ⟨fun _ => KillOutcome.noSuchProcess, 9000, 4242, fun _ => true⟩
          (FileState.holds (PyJson.pidOnly 999999)) :=
  ⟨(read_state_absent_iff.1 FileState.invalidJson).mpr (Or.inr rfl),
   read_state_absent_iff.2.1 PyJson.noPid, rfl,
   read_state_absent_iff.2.2.2 ⟨"localhost", 8085, "test-project", 15⟩
     ⟨fun _ => KillOutcome.noSuchProcess, 9000, 4242, fun _ => true⟩
     999999 rfl⟩

/-! ### Claims about serialized histories -/

/-- Helper: a run of `_start_shared` calls against a persisted record
whose owner stays alive throughout turns every caller into a joiner —
identical stored connection info returned each time, no launches, no
port probes, and only the count growing. -/
theorem runAcquires_joins (cfg : EmulatorConfig) (envs : List StartEnv)
    (pid : Int) (host : String) (port : Nat) (project : String) (wc : Int)
    (h : ∀ e ∈ envs, isPidAliveOS e.probe pid = true) :
    runAcquires cfg envs (writeState ⟨pid, host, port, project, wc⟩) =
      (envs.map (fun _ =>
        (Except.ok ⟨host, port, project⟩, (⟨0, 0⟩ : StartEff))),
       writeState ⟨pid, host, port, project, wc + envs.length⟩) := by
  induction envs generalizing wc with
  | nil => simp [runAcquires]
  | cons e rest ih =>
    have he : isPidAliveOS e.probe pid = true := h e (List.mem_cons_self e rest)
    have hrest : ∀ x ∈ rest, isPidAliveOS x.probe pid = true :=
      fun x hx => h x (List.mem_cons_of_mem e hx)
    have hstep := startShared_join cfg e
      (writeState ⟨pid, host, port, project, wc⟩)
      ⟨pid, host, port, project, wc⟩ rfl he
    rw [runAcquires]
    rw [hstep]
    have htail := ih (wc + 1) hrest
    simp only [htail]
    simp only [List.map_cons, List.length_cons, Prod.mk.injEq, writeState,
      FileState.holds.injEq, PyJson.record.injEq, SharedState.mk.injEq]
    simp only [true_and, and_true]
    push_cast
    ring

/-- C1: in shared mode, for a serialized sequence of `acquire()` calls
starting from an absent record, with the first owner's launched process
reported alive by every later caller's probe, exactly one launch and one
readiness wait occur in total: the first caller launches once, each of
the other callers joins with zero launches and zero port probes, and all
callers receive the identical `EmulatorInfo`. -/
theorem single_owner_invariant (cfg : EmulatorConfig) (e0 : StartEnv)
    (rest : List StartEnv) (file : FileState)
    (h0 : readState file = none)
    (hready : waitForPort e0.conn cfg.host (resolvedPort cfg e0)
        cfg.timeout = Except.ok ())
    (halive : ∀ e ∈ rest, isPidAliveOS e.probe e0.launchPid = true) :
    runAcquires cfg (e0 :: rest) file =
      ((Except.ok ⟨cfg.host, resolvedPort cfg e0, cfg.project⟩,
          (⟨1, 1⟩ : StartEff))
        :: rest.map (fun _ =>
          (Except.ok ⟨cfg.host, resolvedPort cfg e0, cfg.project⟩,
           (⟨0, 0⟩ : StartEff))),
       writeState
         ⟨e0.launchPid, cfg.host, resolvedPort cfg e0, cfg.project,
          1 + (rest.length : ℤ)⟩) := by
  have hstep : startShared cfg e0 file =
      ⟨Except.ok ⟨cfg.host, resolvedPort cfg e0, cfg.project⟩,
       writeState
         ⟨e0.launchPid, cfg.host, resolvedPort cfg e0, cfg.project, 1⟩,
       ⟨1, 1⟩⟩ := by
    rw [startShared_of_dead cfg e0 file (Or.inl h0)]
    exact startOwner_ready cfg e0 file hready
  rw [runAcquires, hstep]
  have htail := runAcquires_joins cfg rest e0.launchPid cfg.host
    (resolvedPort cfg e0) cfg.project 1 halive
  simp only [htail]

/-- Witness for `single_owner_invariant`: one owner and one joiner. -/
theorem single_owner_invariant_witness :
    readState FileState.missing = none
      ∧ runAcquires ⟨"localhost", 8085, "test-project", 15⟩
          [⟨fun _ => KillOutcome.delivered, 9000, 4242, fun _ => true⟩,
           ⟨fun _ => KillOutcome.delivered, 9001, 4300, fun _ => false⟩]
          FileState.missing =
        ((Except.ok
            ⟨"localhost",
             resolvedPort ⟨"localhost", 8085, "test-project", 15⟩
               ⟨fun _ => KillOutcome.delivered, 9000, 4242, fun _ => true⟩,
             "test-project"⟩, (⟨1, 1⟩ : StartEff))
          :: [(Except.ok
              ⟨"localhost",
               resolvedPort ⟨"localhost", 8085, "test-project", 15⟩
                 ⟨fun _ => KillOutcome.delivered, 9000, 4242,
                   fun _ => true⟩,
               "test-project"⟩, (⟨0, 0⟩ : StartEff))],
         writeState
           ⟨4242, "localhost",
            resolvedPort ⟨"localhost", 8085, "test-project", 15⟩
              ⟨fun _ => KillOutcome.delivered, 9000, 4242, fun _ => true⟩,
            "test-project", 1 + (1 : ℤ)⟩) :=
  ⟨rfl,
   by
    have := single_owner_invariant ⟨"localhost", 8085, "test-project", 15⟩
      ⟨fun _ => KillOutcome.delivered, 9000, 4242, fun _ => true⟩
      [⟨fun _ => KillOutcome.delivered, 9001, 4300, fun _ => false⟩]
      FileState.missing rfl
      (waitForPort_first _ _ _ _ (by norm_num) rfl)
      (by
        intro e he
        rw [List.mem_singleton] at he
        subst he
        rfl)
    simpa using this⟩

/-- Helper: one serialized critical section — either kind — preserves the
positive-count property of the state file. -/
theorem goodFile_step (op : CoordOp) (f : FileState) (h : goodFile f) :
    goodFile (stepFile op f) := by
  cases op with
  | acq cfg env =>
    have howner : ∀ g : FileState, goodFile g →
        goodFile (startOwner cfg env g).file := by
      intro g hg
      cases hw : waitForPort env.conn cfg.host (resolvedPort cfg env)
          cfg.timeout with
      | error e => simpa [startOwner, hw] using hg
      | ok u => simp [startOwner, hw, writeState, goodFile]
    cases f with
    | missing => exact howner FileState.missing h
    | invalidJson => exact howner FileState.invalidJson h
    | holds v =>
      cases v with
      | noPid => simp [stepFile, startShared, readState, goodFile]
      | pidOnly pid =>
        cases ha : isPidAliveOS env.probe pid with
        | true => simp [stepFile, startShared, readState, ha, goodFile]
        | false =>
          have hd : startShared cfg env (FileState.holds (PyJson.pidOnly pid))
              = startOwner cfg env (FileState.holds (PyJson.pidOnly pid)) := by
            simp [startShared, readState, ha]
          simpa [stepFile, hd] using
            howner (FileState.holds (PyJson.pidOnly pid)) trivial
      | record s =>
        cases ha : isPidAliveOS env.probe s.pid with
        | true =>
          have h1 : 1 ≤ s.worker_count := h
          simp only [stepFile, startShared, readState, ha, if_pos]
          simp only [writeState, goodFile]
          omega
        | false =>
          have hd : startShared cfg env (FileState.holds (PyJson.record s))
              = startOwner cfg env (FileState.holds (PyJson.record s)) :=
            startShared_of_dead cfg env _ (Or.inr ⟨s, rfl, ha⟩)
          simpa [stepFile, hd] using
            howner (FileState.holds (PyJson.record s)) h
  | rel env =>
    cases f with
    | missing => exact h
    | invalidJson => exact h
    | holds v =>
      cases v with
      | noPid => simp [stepFile, stopShared, readState, goodFile]
      | pidOnly pid => simp [stepFile, stopShared, readState, goodFile]
      | record s =>
        by_cases hle : s.worker_count - 1 ≤ 0
        · cases ht : terminateProcess env.term 5 with
          | error e =>
            simpa [stepFile, stopShared, readState, hle, ht, goodFile]
              using h
          | ok u => simp [stepFile, stopShared, readState, hle, ht, goodFile]
        · simp only [stepFile, stopShared, readState, if_neg hle]
          simp only [writeState, goodFile]
          omega

/-- C10: every state record the coordinator itself persists has a
positive user count: starting from any file satisfying the invariant
(for instance an absent file), any serialized history of acquire and
release critical sections maintains it — the owner path writes count 1,
the join path increments a positive stored count, and the release path
persists only strictly positive decremented counts (deleting the file
otherwise). -/
theorem persisted_count_positive (ops : List CoordOp) (f : FileState)
    (h : goodFile f) : goodFile (runOps ops f) := by
  induction ops generalizing f with
  | nil => exact h
  | cons op rest ih => exact ih (stepFile op f) (goodFile_step op f h)

/-- Witness for `persisted_count_positive`: a release against a missing
file keeps the invariant. -/
theorem persisted_count_positive_witness :
    goodFile FileState.missing
      ∧ goodFile
          (runOps
            [CoordOp.rel
              ⟨⟨KillOutcome.noSuchProcess, fun _ => KillOutcome.noSuchProcess,
                KillOutcome.noSuchProcess⟩⟩]
            FileState.missing) :=
  ⟨trivial,
   persisted_count_positive
     [CoordOp.rel
       ⟨⟨KillOutcome.noSuchProcess, fun _ => KillOutcome.noSuchProcess,
         KillOutcome.noSuchProcess⟩⟩]
     FileState.missing trivial⟩
